import Mathlib

set_option maxRecDepth 20000

/-!
Verification development for the ssh-file-transfer repository.

This file shallowly embeds the core of `upload_gui.py` (directory-listing
parsing, the path-keyed listing cache, the lazy folder tree, and the
drag-and-drop name-conflict resolution loop) and the port-resolution step of
`upload.py`'s `main`, and proves properties of those embeddings.

String operations mirror Python semantics at the character-list level:
`pystrip` models `str.strip()`, `splitFields` models `str.split(None, n)`
(whitespace split with a maxsplit, the final field keeping its internal and
trailing whitespace), `splitChar` models `str.split(sep)` for a one-character
separator, and `findArrow` models the combination of `" -> " in s` and
`s.split(" -> ", 1)`.
-/

namespace UpGui

/-- The six ASCII whitespace characters recognised by Python `str.split()` /
`str.strip()`. -/
def isPyWS (c : Char) : Bool :=
  c = ' ' || c = '\t' || c = '\n' || c = '\r' || c = '\x0b' || c = '\x0c'

/-- Python `str.strip()` on a character list. -/
def pystrip (cs : List Char) : List Char :=
  ((cs.dropWhile isPyWS).reverse.dropWhile isPyWS).reverse

/-- Python `str.strip()` on a `String`. -/
def pystripS (s : String) : String := String.mk (pystrip s.data)

/-- Helper for `splitChar`: accumulates the current piece (reversed). -/
def splitCharAux (sep : Char) (acc : List Char) : List Char → List (List Char)
  | [] => [acc.reverse]
  | c :: cs =>
      if c = sep then acc.reverse :: splitCharAux sep [] cs
      else splitCharAux sep (c :: acc) cs

/-- Python `str.split(sep)` for a one-character separator. -/
def splitChar (sep : Char) (cs : List Char) : List (List Char) :=
  splitCharAux sep [] cs

/-- Python `str.split(None, maxsplit)`: split on runs of whitespace, at most
`maxsplit` splits; once the budget is exhausted the remainder of the string
(leading whitespace dropped) is the final field. -/
def splitFields (maxsplit : Nat) (cs : List Char) : List (List Char) :=
  match cs.dropWhile isPyWS, maxsplit with
  | [], _ => []
  | c :: rest, 0 => [c :: rest]
  | c :: rest, Nat.succ n =>
      ((c :: rest).takeWhile (fun x => !(isPyWS x))) ::
        splitFields n ((c :: rest).dropWhile (fun x => !(isPyWS x)))

/-- The literal symlink separator `" -> "` as a character list. -/
def arrowChars : List Char := [' ', '-', '>', ' ']

/-- First-occurrence split on `" -> "`: `none` when the separator does not
occur (Python `" -> " in s` is false), otherwise the pieces to the left and
right of the first occurrence (Python `s.split(" -> ", 1)`). -/
def findArrow : List Char → Option (List Char × List Char)
  | [] => none
  | c :: cs =>
      if arrowChars.isPrefixOf (c :: cs) then some ([], (c :: cs).drop 4)
      else
        match findArrow cs with
        | none => none
        | some (pre, post) => some (c :: pre, post)

/-- One parsed directory entry, mirroring the item dictionaries built in
`RemoteFileSystem.list_directory` (upload_gui.py lines 215-226). -/
structure Entry where
  name : String
  display_name : String
  is_dir : Bool
  is_link : Bool
  link_target : Option String
  perms : String
  size : String
  mtime : String
deriving DecidableEq

/-- The per-line body of the parsing loop in
`RemoteFileSystem.list_directory` (upload_gui.py lines 190-226): skip empty
and `total` lines, require at least seven whitespace-separated fields (the
seventh being the remainder of the line), drop `.` and `..`, derive the kind
flags from the first character of the permissions field, and split a symlink
name on the first `" -> "`. Returns `none` for a skipped line. -/
def parseLineCore (line : List Char) : Option Entry :=
  if line = [] || "total".data.isPrefixOf line then none
  else
    let parts := splitFields 6 line
    if parts.length < 7 then none
    else
      let permsF := parts.getD 0 []
      let sizeF := parts.getD 4 []
      let mtimeF := parts.getD 5 []
      let rawName := parts.getD 6 []
      if rawName = ['.'] || rawName = ['.', '.'] then none
      else
        let isDir := ['d'].isPrefixOf permsF
        let isLink := ['l'].isPrefixOf permsF
        match (if isLink then findArrow rawName else none) with
        | some (pre, post) =>
            some ⟨String.mk pre, String.mk (pre ++ arrowChars ++ post), isDir, isLink,
                  some (String.mk post), String.mk permsF, String.mk sizeF, String.mk mtimeF⟩
        | none =>
            some ⟨String.mk rawName, String.mk rawName, isDir, isLink, none,
                  String.mk permsF, String.mk sizeF, String.mk mtimeF⟩

/-- The parsing part of `RemoteFileSystem.list_directory`: strip the raw
output, split into lines, parse each line, keep the successes. -/
def parseListing (output : String) : List Entry :=
  (splitChar '\n' (pystrip output.data)).filterMap parseLineCore

/-- What `list_directory` produces from raw executor output: the sentinel
check `output.strip() == "ERROR"` (upload_gui.py line 186) yields an empty
list, otherwise the line parse runs. -/
def listOutput (output : String) : List Entry :=
  if pystripS output = "ERROR" then [] else parseListing output

/-- The `path -> items` dictionary `RemoteFileSystem.cache`, as an
association list. -/
abbrev Cache := List (String × List Entry)

/-- Dictionary lookup `path in cache` / `cache[path]`. -/
def cacheFind : Cache → String → Option (List Entry)
  | [], _ => none
  | kv :: t, path => if kv.1 = path then some kv.2 else cacheFind t path

/-- Dictionary assignment `cache[path] = items`. -/
def cacheSet (cache : Cache) (path : String) (items : List Entry) : Cache :=
  (path, items) :: cache.filter (fun kv => kv.1 ≠ path)

/-- Dictionary removal `cache.pop(path, None)`. -/
def cachePop (cache : Cache) (path : String) : Cache :=
  cache.filter (fun kv => kv.1 ≠ path)

/-- The mutable state of a `RemoteFileSystem`: its listing cache. -/
structure FS where
  cache : Cache
deriving DecidableEq

/-- `RemoteFileSystem.list_directory` (upload_gui.py lines 175-229).
`exec` stands for the remote executor (`_run_ssh_command` applied to the
listing command for a path); the returned `Nat` counts executor invocations
made by this call (0 on a cache hit, 1 otherwise). A sentinel (`"ERROR"`)
result is returned as an empty list and — exactly as in the source, where the
early return at line 187 skips the `self.cache[path] = items` at line 228 —
is NOT stored in the cache. -/
def list_directory (exec : String → String) (fs : FS) (path : String) :
    List Entry × FS × Nat :=
  match cacheFind fs.cache path with
  | some items => (items, fs, 0)
  | none =>
      let output := exec path
      if pystripS output = "ERROR" then ([], fs, 1)
      else
        let items := parseListing output
        (items, ⟨cacheSet fs.cache path items⟩, 1)

/-- `RemoteFileSystem.clear_cache` (upload_gui.py lines 231-236): a truthy
path pops that one key, a falsy path (`None` or the empty string) clears the
whole dictionary. -/
def clear_cache (fs : FS) (path : Option String) : FS :=
  match path with
  | some p => if p = "" then ⟨[]⟩ else ⟨cachePop fs.cache p⟩
  | none => ⟨[]⟩

/-- Python `PurePosixPath(p).name`: the last nonempty slash-separated
segment. -/
def pathBaseName (p : String) : String :=
  String.mk (((splitChar '/' p.data).filter (fun s => s ≠ [])).getLastD [])

/-- Python `str(Path(dir) / name)` for a base name `name`. -/
def pathJoin (dir name : String) : String :=
  if dir.data.getLastD ' ' = '/' then dir ++ name else dir ++ "/" ++ name

/-- An externally visible remote action issued by `handle_drop`: a remote
recursive delete (`RemoteFileSystem.delete_path`) or a dispatched upload
(`UploadWorker(self.uploader, local_path, remote_dest)`). -/
inductive DropEvent where
  | deleteRemote : String → DropEvent
  | transfer : String → String → DropEvent
deriving DecidableEq

/-- The `while existing:` prompt loop of `UploaderWindow.handle_drop`
(upload_gui.py lines 1226-1248), entered when the proposed name conflicts.
Each list element is one `QInputDialog.getText` outcome: `none` for a
cancelled dialog (`ok` false), `some t` for an accepted dialog with text `t`.
An exhausted response list is treated as a cancelled dialog.
Returns `(none, rest)` when the item is skipped, and
`(some (finalName, overwrite), rest)` when a name is accepted, together with
the responses left for later items of the batch. -/
def resolveConflict (known : List String) :
    String → List (Option String) → Option (String × Bool) × List (Option String)
  | _, [] => (none, [])
  | _, none :: rest => (none, rest)
  | current, some t :: rest =>
      let text := pystripS t
      if text = "" then resolveConflict known current rest
      else if text = current then (some (text, true), rest)
      else if known.contains text then resolveConflict known text rest
      else (some (text, false), rest)

/-- Per-item name decision of `handle_drop`: a name absent from the known
entries is accepted unchanged without consulting the prompt; a present name
enters the conflict loop. -/
def resolveTargetName (known : List String) (name : String)
    (resps : List (Option String)) :
    Option (String × Bool) × List (Option String) :=
  if known.contains name then resolveConflict known name resps
  else (some (name, false), resps)

/-- The synthetic placeholder insertion
`entries_by_name[target_name] = {"name": target_name}` (upload_gui.py line
1261), on the known-names view of the dictionary. -/
def addName (n : String) (known : List String) : List String :=
  if known.contains n then known else n :: known

/-- One iteration of the `for i, local_path in enumerate(paths)` loop of
`handle_drop` (upload_gui.py lines 1220-1269): resolve the name, on
overwrite issue a remote delete (popping the entry only when the delete did
not raise, per the `try/except` at lines 1254-1258; `delOk` tells whether the
delete of a given remote path succeeds), record the placeholder, and
dispatch the upload. Returns the issued events, the updated known-name set,
and the remaining prompt responses. -/
def dropStep (delOk : String → Bool) (targetPath : String) (known : List String)
    (localPath : String) (resps : List (Option String)) :
    List DropEvent × List String × List (Option String) :=
  match resolveTargetName known (pathBaseName localPath) resps with
  | (none, rest) => ([], known, rest)
  | (some (finalName, ow), rest) =>
      let dest := pathJoin targetPath finalName
      let events :=
        (if ow then [DropEvent.deleteRemote dest] else []) ++
          [DropEvent.transfer localPath dest]
      let known1 :=
        if ow && delOk dest then known.filter (fun k => k ≠ finalName) else known
      (events, addName finalName known1, rest)

/-- The whole item loop of `handle_drop`, threading the known-name set and
the prompt responses through the batch in order. -/
def dropBatch (delOk : String → Bool) (targetPath : String) :
    List String → List String → List (Option String) → List DropEvent
  | _, [], _ => []
  | known, localPath :: rest, resps =>
      let step := dropStep delOk targetPath known localPath resps
      step.1 ++ dropBatch delOk targetPath step.2.1 rest step.2.2

/-- `UploaderWindow.handle_drop` (upload_gui.py lines 1201-1269), for a
connected window: empty batch or empty target does nothing; otherwise the
cache is cleared (only the target path when it is the currently displayed
path, the entire cache otherwise — line 1212), a listing of the target is
fetched, its entry names (dictionary keys, falsy names dropped) seed the
known-name set, and the batch is resolved item by item. Returns the issued
delete/transfer events, the cache state after the pre-resolution listing,
and the number of executor invocations that listing made. -/
def handle_drop (exec : String → String) (delOk : String → Bool) (fs : FS)
    (paths : List String) (targetPath currentRemotePath : String)
    (resps : List (Option String)) : List DropEvent × FS × Nat :=
  if paths = [] ∨ targetPath = "" then ([], fs, 0)
  else
    let refreshAfter := targetPath = currentRemotePath
    let fs1 := clear_cache fs (if refreshAfter then some targetPath else none)
    let listed := list_directory exec fs1 targetPath
    let known := (listed.1.filter (fun e => e.name ≠ "")).map (fun e => e.name)
    (dropBatch delOk targetPath known paths resps, listed.2.1, listed.2.2)

/-- One folder-tree item: its remote path, its loaded flag
(`item.data(QtCore.Qt.UserRole)`), and the names of its materialized
children. -/
structure FolderItem where
  path : String
  loaded : Bool
  childNames : List String
deriving DecidableEq

/-- `UploaderWindow.ensure_folder_children` (upload_gui.py lines 929-969)
with the started worker's `on_done` applied: an already loaded item, an item
with a falsy path, or an item whose path already has an in-flight worker
starts no fetch; otherwise one `RemoteListWorker` fetch runs and the item's
children become the directory/symlink entries of the listing, with the
loaded flag set. The `Nat` counts fetches started. -/
def ensure_folder_children (workers : List String) (listing : List Entry)
    (item : FolderItem) : FolderItem × Nat :=
  if item.loaded then (item, 0)
  else if item.path = "" then (item, 0)
  else if workers.contains item.path then (item, 0)
  else
    (⟨item.path, true,
      (listing.filter (fun e => e.is_dir || e.is_link)).map (fun e => e.name)⟩, 1)

/-- Nonempty slash-separated segments of a path, for the
`Path.relative_to` success test. -/
def pathSegments (p : String) : List String :=
  ((splitChar '/' p.data).filter (fun s => s ≠ [])).map String.mk

/-- The window state touched by `on_folder_collapsed`: the collapsed tree
item and the currently displayed path. -/
structure CollapseState where
  item : FolderItem
  current_remote_path : String
deriving DecidableEq

/-- `UploaderWindow.on_folder_collapsed` (upload_gui.py lines 986-1006):
when the current path lies inside the collapsed folder
(`current.relative_to(collapsed)` succeeds), the current path moves up to the
collapsed folder; otherwise nothing changes. The collapsed item itself —
its loaded flag and its children — is never modified. -/
def on_folder_collapsed (st : CollapseState) : CollapseState :=
  if (pathSegments st.item.path).isPrefixOf (pathSegments st.current_remote_path)
  then ⟨st.item, st.item.path⟩
  else st

/-- The Vast.ai port-mapping step of `upload.py`'s `main` (lines 288-296):
when a mapped port resolves and differs from the SSH-config port, an
informational line is printed; the mapped port then replaces the effective
port either way. Returns the effective port and the printed lines. -/
def cliResolvePort (port : String) (mapped : Option String) :
    String × List String :=
  match mapped with
  | none => (port, [])
  | some m =>
      if m ≠ port then
        (m, ["Using Vast.ai mapped port " ++ m ++ " for container port 2222"])
      else (m, [])

/-- The Vast.ai port-mapping step of `UploaderWindow.connect_to_host`
(upload_gui.py lines 1082-1084): a resolved mapped port replaces the
effective port with no accompanying message. Returns the effective port and
the messages emitted by this step. -/
def guiResolvePort (port : String) (mapped : Option String) :
    String × List String :=
  match mapped with
  | none => (port, [])
  | some m => (m, [])

/-- The user-visible text `connect_to_host` emits about the connection
(upload_gui.py lines 1089-1090): the status and log lines, both built from
the effective port after the silent replacement. -/
def guiConnectMessages (user hostname port : String) (mapped : Option String) :
    List String :=
  let p := (guiResolvePort port mapped).1
  ["Connected: " ++ user ++ "@" ++ hostname ++ ":" ++ p,
   "Connected to " ++ user ++ "@" ++ hostname ++ ":" ++ p]

/-! ### Cache lemmas -/

theorem cacheFind_pop_self (c : Cache) (p : String) :
    cacheFind (cachePop c p) p = none := by
  induction c with
  | nil => rfl
  | cons kv t ih =>
      by_cases hk : kv.1 = p
      · simpa [cachePop, List.filter_cons, hk] using ih
      · simpa [cachePop, List.filter_cons, hk, cacheFind] using ih

theorem cacheFind_pop_ne (c : Cache) (p q : String) (h : p ≠ q) :
    cacheFind (cachePop c q) p = cacheFind c p := by
  have hqp : q ≠ p := fun e => h e.symm
  induction c with
  | nil => rfl
  | cons kv t ih =>
      by_cases hk : kv.1 = q
      · simpa [cachePop, List.filter_cons, hk, cacheFind, hqp] using ih
      · by_cases hp : kv.1 = p
        · simp [cachePop, List.filter_cons, hk, cacheFind, hp, h]
        · simpa [cachePop, List.filter_cons, hk, cacheFind, hp] using ih

theorem cacheFind_set_self (c : Cache) (p : String) (v : List Entry) :
    cacheFind (cacheSet c p v) p = some v := by
  simp [cacheSet, cacheFind]

theorem cacheFind_set_ne (c : Cache) (p q : String) (v : List Entry)
    (h : p ≠ q) : cacheFind (cacheSet c q v) p = cacheFind c p := by
  have hq : q ≠ p := fun hqp => h hqp.symm
  have hpop := cacheFind_pop_ne c p q h
  simp only [cachePop] at hpop
  simpa [cacheSet, cacheFind, hq] using hpop

theorem list_directory_miss_invokes (exec : String → String) (fs : FS)
    (path : String) (h : cacheFind fs.cache path = none) :
    (list_directory exec fs path).2.2 = 1 := by
  unfold list_directory
  rw [h]
  by_cases herr : pystripS (exec path) = "ERROR" <;> simp [herr]

theorem clear_cache_some_find (fs : FS) (p : String) :
    cacheFind (clear_cache fs (some p)).cache p = none := by
  by_cases hp : p = "" <;> simp [clear_cache, hp, cacheFind, cacheFind_pop_self]

theorem list_directory_frame (exec : String → String) (fs : FS)
    (path p : String) (h : p ≠ path) :
    cacheFind (list_directory exec fs path).2.1.cache p = cacheFind fs.cache p := by
  unfold list_directory
  cases hf : cacheFind fs.cache path with
  | some items => rfl
  | none =>
      by_cases herr : pystripS (exec path) = "ERROR"
      · simp [herr]
      · simp [herr, cacheFind_set_ne _ _ _ _ h]

theorem handle_drop_listing (exec : String → String) (delOk : String → Bool)
    (fs : FS) (paths : List String) (target cur : String)
    (resps : List (Option String)) (hpaths : paths ≠ []) (htarget : target ≠ "") :
    (handle_drop exec delOk fs paths target cur resps).2.1 =
      (list_directory exec
        (clear_cache fs (if target = cur then some target else none)) target).2.1 ∧
    (handle_drop exec delOk fs paths target cur resps).2.2 =
      (list_directory exec
        (clear_cache fs (if target = cur then some target else none)) target).2.2 := by
  unfold handle_drop
  simp [hpaths, htarget]

/-! ### Claim theorems: cache behaviour -/

/-- Claim C4, counterexample: when the executor answers with the error
sentinel, the result is not cached, so two consecutive `list_directory`
calls on the same path with no intervening invalidation each issue an
executor invocation — two in total, refuting "at most one". -/
theorem c4_counterexample :
    ((list_directory (fun _ => "ERROR") ⟨[]⟩ "/data").2.2 = 1) ∧
    ((list_directory (fun _ => "ERROR")
        (list_directory (fun _ => "ERROR") ⟨[]⟩ "/data").2.1 "/data").2.2 = 1) := by
  decide

/-- Claim C4 (amended): provided the first call's listing output is not the
error sentinel, two consecutive `list_directory` calls on a path with no
intervening invalidation issue at most one executor invocation, the second
call is served from the cache (same entries, unchanged state, zero
invocations); after `clear_cache` of a path the next `list_directory` of that
path issues a fresh executor invocation regardless of prior cache state; and
`clear_cache` with no path empties the whole cache. -/
theorem c4_cache_idempotence :
    (∀ (exec : String → String) (fs : FS) (path : String),
        pystripS (exec path) ≠ "ERROR" →
        (list_directory exec fs path).2.2 +
            (list_directory exec (list_directory exec fs path).2.1 path).2.2 ≤ 1 ∧
        (list_directory exec (list_directory exec fs path).2.1 path).1 =
            (list_directory exec fs path).1 ∧
        (list_directory exec (list_directory exec fs path).2.1 path).2.1 =
            (list_directory exec fs path).2.1 ∧
        (list_directory exec (list_directory exec fs path).2.1 path).2.2 = 0) ∧
    (∀ (exec : String → String) (fs : FS) (path : String),
        (list_directory exec (clear_cache fs (some path)) path).2.2 = 1) ∧
    (∀ fs : FS, clear_cache fs none = ⟨[]⟩) := by
  refine ⟨?_, ?_, ?_⟩
  · intro exec fs path h
    cases hf : cacheFind fs.cache path with
    | some items =>
        simp [list_directory, hf]
    | none =>
        simp [list_directory, hf, h, cacheFind_set_self]
  · intro exec fs path
    exact list_directory_miss_invokes exec _ path (clear_cache_some_find fs path)
  · intro fs
    rfl

/-- Claim C4 witness: instantiation of the amended idempotence statement at
a concrete executor, empty cache and path. -/
theorem c4_witness :
    pystripS ((fun _ : String => "total 0") "/data") ≠ "ERROR" ∧
    ((list_directory (fun _ => "total 0") ⟨[]⟩ "/data").2.2 +
        (list_directory (fun _ => "total 0")
          (list_directory (fun _ => "total 0") ⟨[]⟩ "/data").2.1 "/data").2.2 ≤ 1) :=
  ⟨by decide, (c4_cache_idempotence.1 (fun _ => "total 0") ⟨[]⟩ "/data" (by decide)).1⟩

/-- Claim C10: a drop batch whose target is not the currently displayed path
clears the entire directory cache (after the drop, every path other than the
target is uncached), while a drop onto the displayed path evicts only the
target's entry (every other path's cached entries are untouched); in both
cases the pre-resolution listing is fresh — exactly one executor invocation
is made for it. -/
theorem c10_drop_cache_scope :
    ∀ (exec : String → String) (delOk : String → Bool) (fs : FS)
      (paths : List String) (target cur : String) (resps : List (Option String)),
      paths ≠ [] → target ≠ "" →
      (handle_drop exec delOk fs paths target cur resps).2.2 = 1 ∧
      (target = cur → ∀ p, p ≠ target →
          cacheFind (handle_drop exec delOk fs paths target cur resps).2.1.cache p =
            cacheFind fs.cache p) ∧
      (target ≠ cur → ∀ p, p ≠ target →
          cacheFind (handle_drop exec delOk fs paths target cur resps).2.1.cache p =
            none) := by
  intro exec delOk fs paths target cur resps hpaths htarget
  obtain ⟨hfs, hn⟩ :=
    handle_drop_listing exec delOk fs paths target cur resps hpaths htarget
  refine ⟨?_, ?_, ?_⟩
  · rw [hn]
    apply list_directory_miss_invokes
    by_cases hcur : target = cur
    · simp [hcur, clear_cache_some_find]
    · simp [hcur, clear_cache, cacheFind]
  · intro hcur p hp
    subst hcur
    rw [hfs, list_directory_frame _ _ _ _ hp]
    simp [clear_cache, htarget]
    exact cacheFind_pop_ne _ _ _ hp
  · intro hcur p hp
    rw [hfs, list_directory_frame _ _ _ _ hp]
    simp [hcur, clear_cache, cacheFind]

/-- Claim C10 witness: a concrete drop whose target differs from the
displayed path leaves a previously cached unrelated path evicted, and the
pre-resolution listing invoked the executor once. -/
theorem c10_witness :
    (["/local/f.txt"] : List String) ≠ [] ∧
    ("/workspace/data" : String) ≠ "" ∧
    ("/workspace/data" : String) ≠ "/other" ∧
    ("/old" : String) ≠ "/workspace/data" ∧
    (handle_drop (fun _ => "total 0") (fun _ => true)
        ⟨[("/old", [])]⟩ ["/local/f.txt"] "/workspace/data" "/other" []).2.2 = 1 ∧
    cacheFind (handle_drop (fun _ => "total 0") (fun _ => true)
        ⟨[("/old", [])]⟩ ["/local/f.txt"] "/workspace/data" "/other" []).2.1.cache
      "/old" = none := by
  refine ⟨by decide, by decide, by decide, by decide, ?_, ?_⟩
  · exact (c10_drop_cache_scope (fun _ => "total 0") (fun _ => true)
      ⟨[("/old", [])]⟩ ["/local/f.txt"] "/workspace/data" "/other" []
      (by decide) (by decide)).1
  · exact (c10_drop_cache_scope (fun _ => "total 0") (fun _ => true)
      ⟨[("/old", [])]⟩ ["/local/f.txt"] "/workspace/data" "/other" []
      (by decide) (by decide)).2.2 (by decide) "/old" (by decide)

/-! ### Parsing lemmas -/

theorem parseLineCore_none_of_total (cs : List Char)
    (h : "total".data.isPrefixOf cs = true) : parseLineCore cs = none := by
  unfold parseLineCore
  simp [h]

theorem parseLineCore_none_of_short (cs : List Char)
    (h : (splitFields 6 cs).length < 7) : parseLineCore cs = none := by
  unfold parseLineCore
  split
  · rfl
  · simp [h]

theorem parseLineCore_none_of_dots (cs : List Char)
    (h : (splitFields 6 cs).getD 6 [] = ['.'] ∨
         (splitFields 6 cs).getD 6 [] = ['.', '.']) : parseLineCore cs = none := by
  rw [List.getD_eq_getElem?_getD] at h
  unfold parseLineCore
  split
  · rfl
  · rcases h with h | h <;> simp [h]

theorem isPrefixOf_d_not_l (l : List Char)
    (h : ['d'].isPrefixOf l = true) : ['l'].isPrefixOf l = false := by
  cases l with
  | nil => simp [List.isPrefixOf] at h
  | cons c t =>
      simp [List.isPrefixOf] at h ⊢
      subst h
      decide

theorem parseLineCore_dir_not_link (cs : List Char) (e : Entry)
    (h : parseLineCore cs = some e) (hd : e.is_dir = true) :
    e.is_link = false := by
  simp only [parseLineCore] at h
  split at h
  · exact absurd h (by simp)
  · split at h
    · exact absurd h (by simp)
    · split at h
      · exact absurd h (by simp)
      · split at h <;>
          · injection h with h
            subst h
            simp only at hd ⊢
            exact isPrefixOf_d_not_l _ hd

/-! ### Claim theorems: listing parse -/

/-- Claim C6: the listing parse is total and skips rather than aborts: any
raw output all of whose lines are `total` lines or lines with fewer than
seven whitespace-separated fields (which covers the `ERROR` sentinel line)
parses to the empty sequence; a line with fewer than seven fields is always
ignored; a line whose seventh field (the remainder of the line after the
sixth field, so it may contain whitespace) is `.` or `..` is dropped; a
non-symlink entry's name is exactly that remainder field, as the concrete
whitespace-containing name shows; and the concrete `total`/sentinel outputs
parse to the empty sequence. -/
theorem c6_parse_total_skips_malformed :
    (∀ output : String,
        (∀ line ∈ splitChar '\n' (pystrip output.data),
            "total".data.isPrefixOf line = true ∨ (splitFields 6 line).length < 7) →
        listOutput output = []) ∧
    (∀ cs : List Char, (splitFields 6 cs).length < 7 → parseLineCore cs = none) ∧
    (∀ cs : List Char,
        (splitFields 6 cs).getD 6 [] = ['.'] ∨
          (splitFields 6 cs).getD 6 [] = ['.', '.'] →
        parseLineCore cs = none) ∧
    (∀ (cs : List Char) (e : Entry), parseLineCore cs = some e →
        e.is_link = false → e.name = String.mk ((splitFields 6 cs).getD 6 [])) ∧
    listOutput "ERROR" = [] ∧
    listOutput "total 4\nERROR" = [] ∧
    listOutput "total 4" = [] ∧
    parseLineCore "-rw-r--r-- 1 user group 5 2024-01-01T00:00:00 my file name".data =
      some ⟨"my file name", "my file name", false, false, none,
            "-rw-r--r--", "5", "2024-01-01T00:00:00"⟩ := by
  refine ⟨?_, parseLineCore_none_of_short, parseLineCore_none_of_dots, ?_,
    by decide, by decide, by decide, by decide⟩
  · intro output h
    unfold listOutput
    by_cases herr : pystripS output = "ERROR"
    · simp [herr]
    · rw [if_neg herr]
      unfold parseListing
      rw [List.filterMap_eq_nil_iff]
      intro line hl
      rcases h line hl with h1 | h1
      · exact parseLineCore_none_of_total line h1
      · exact parseLineCore_none_of_short line h1
  · intro cs e h hlink
    simp only [parseLineCore] at h
    split at h
    · exact absurd h (by simp)
    · split at h
      · exact absurd h (by simp)
      · split at h
        · exact absurd h (by simp)
        · split at h
          · rename_i pre2 post2 heq
            injection h with h
            subst h
            simp only at hlink
            rw [hlink] at heq
            simp at heq
          · injection h with h
            subst h
            rfl

/-- Claim C6 witness: a listing that is only a `total` summary line parses
to the empty sequence, via the general statement. -/
theorem c6_witness : listOutput "total 7" = [] :=
  c6_parse_total_skips_malformed.1 "total 7" (by decide)

/-- Claim C7: for every parsed line whose entry is a symlink (permissions
field starting with `l`) and whose raw name field contains `" -> "`, the
left side of the first separator becomes the entry's name, the right side
its link target, and the display name is rebuilt as `name ++ " -> " ++
target`. -/
theorem c7_symlink_round_trip :
    ∀ (cs : List Char) (e : Entry) (pre post : List Char),
      parseLineCore cs = some e → e.is_link = true →
      findArrow ((splitFields 6 cs).getD 6 []) = some (pre, post) →
      e.name = String.mk pre ∧ e.link_target = some (String.mk post) ∧
      e.display_name = String.mk pre ++ " -> " ++ String.mk post := by
  intro cs e pre post h hlink harrow
  simp only [parseLineCore] at h
  split at h
  · exact absurd h (by simp)
  · split at h
    · exact absurd h (by simp)
    · split at h
      · exact absurd h (by simp)
      · split at h
        · rename_i pre2 post2 heq
          injection h with h
          subst h
          simp only at hlink
          rw [hlink] at heq
          simp only [if_true] at heq
          rw [harrow] at heq
          obtain ⟨rfl, rfl⟩ : pre = pre2 ∧ post = post2 := by simpa using heq
          exact ⟨rfl, rfl, rfl⟩
        · rename_i heq
          injection h with h
          subst h
          simp only at hlink
          rw [hlink] at heq
          simp only [if_true] at heq
          rw [harrow] at heq
          exact absurd heq (by simp)

/-- Claim C7 witness: parsing the symlink line whose raw name field is
`"a -> b"` recovers name `a`, link target `b` and display name `a -> b`. -/
theorem c7_witness :
    (⟨"a", "a -> b", false, true, some "b", "lrwxrwxrwx", "4",
      "2024-01-01T00:00:00"⟩ : Entry).name = String.mk ['a'] ∧
    (⟨"a", "a -> b", false, true, some "b", "lrwxrwxrwx", "4",
      "2024-01-01T00:00:00"⟩ : Entry).link_target = some (String.mk ['b']) ∧
    (⟨"a", "a -> b", false, true, some "b", "lrwxrwxrwx", "4",
      "2024-01-01T00:00:00"⟩ : Entry).display_name =
      String.mk ['a'] ++ " -> " ++ String.mk ['b'] :=
  c7_symlink_round_trip
    "lrwxrwxrwx 1 user group 4 2024-01-01T00:00:00 a -> b".data
    ⟨"a", "a -> b", false, true, some "b", "lrwxrwxrwx", "4", "2024-01-01T00:00:00"⟩
    ['a'] ['b'] (by decide) (by decide) (by decide)

/-- Claim C9: every entry produced by a listing parse has mutually exclusive
kind flags — `is_dir` and `is_link` are never both true, since both derive
from the first character of the same permissions field. -/
theorem c9_dir_link_exclusive :
    ∀ (output : String) (e : Entry), e ∈ listOutput output →
      e.is_dir = true → e.is_link = false := by
  intro output e hmem hdir
  unfold listOutput at hmem
  split at hmem
  · exact absurd hmem (List.not_mem_nil e)
  · unfold parseListing at hmem
    rw [List.mem_filterMap] at hmem
    obtain ⟨line, _, hline⟩ := hmem
    exact parseLineCore_dir_not_link line e hline hdir

/-- Claim C9 witness: a concrete directory entry of a concrete listing has
`is_dir` true and, by the theorem, `is_link` false. -/
theorem c9_witness :
    ((⟨"sub", "sub", true, false, none, "drwxr-xr-x", "4096",
        "2024-01-01T00:00:00"⟩ : Entry) ∈
      listOutput "drwxr-xr-x 2 user group 4096 2024-01-01T00:00:00 sub") ∧
    (⟨"sub", "sub", true, false, none, "drwxr-xr-x", "4096",
        "2024-01-01T00:00:00"⟩ : Entry).is_link = false :=
  ⟨by decide,
   c9_dir_link_exclusive "drwxr-xr-x 2 user group 4096 2024-01-01T00:00:00 sub"
     ⟨"sub", "sub", true, false, none, "drwxr-xr-x", "4096", "2024-01-01T00:00:00"⟩
     (by decide) (by decide)⟩

/-! ### Claim theorems: drop conflict resolution -/

/-- Claim C1: an item whose base name is not among the known entries of the
target directory is accepted unchanged without consulting the prompt, one
transfer to `targetPath/name` is dispatched and no deletion is issued, and
the accepted name is recorded as a synthetic placeholder so that a later
item of the same batch with that name is treated as a conflict (concretely,
a second `f.txt` in one batch consults — and here loses to — the prompt).
The final conjunct is the spec scenario: target entries `{photo.png}`,
batch `[photo.png, notes.txt]`, prompt answer `photo2.png`, giving exactly
the transfers `photo.png -> photo2.png` and `notes.txt -> notes.txt` with no
remote deletion. -/
theorem c1_fresh_names_accepted :
    (∀ (known : List String) (n : String) (resps : List (Option String)),
        known.contains n = false →
        resolveTargetName known n resps = (some (n, false), resps)) ∧
    (∀ (delOk : String → Bool) (target : String) (known : List String)
        (localPath : String) (resps : List (Option String)),
        known.contains (pathBaseName localPath) = false →
        dropStep delOk target known localPath resps =
          ([DropEvent.transfer localPath
              (pathJoin target (pathBaseName localPath))],
            addName (pathBaseName localPath) known, resps)) ∧
    (∀ (n : String) (known : List String),
        (addName n known).contains n = true) ∧
    ((handle_drop (fun _ => "total 0") (fun _ => true) ⟨[]⟩
        ["/a/f.txt", "/b/f.txt"] "/ws/data" "/ws/data" [none]).1 =
      [DropEvent.transfer "/a/f.txt" "/ws/data/f.txt"]) ∧
    ((handle_drop
        (fun _ => "-rw-r--r-- 1 user group 100 2024-01-01T00:00:00 photo.png")
        (fun _ => true) ⟨[]⟩ ["/home/me/photo.png", "/home/me/notes.txt"]
        "/ws/data" "/ws/data" [some "photo2.png"]).1 =
      [DropEvent.transfer "/home/me/photo.png" "/ws/data/photo2.png",
       DropEvent.transfer "/home/me/notes.txt" "/ws/data/notes.txt"]) := by
  refine ⟨?_, ?_, ?_, by decide, by decide⟩
  · intro known n resps h
    have hmem : ¬ n ∈ known := by simpa using h
    simp [resolveTargetName, hmem]
  · intro delOk target known localPath resps h
    have hmem : ¬ pathBaseName localPath ∈ known := by simpa using h
    simp [dropStep, resolveTargetName, hmem]
  · intro n known
    by_cases hc : n ∈ known <;> simp [addName, hc]

/-- Claim C1 witness: a fresh base name at a concrete known-entry set is
accepted unchanged with one dispatched transfer. -/
theorem c1_witness :
    (["photo.png"] : List String).contains (pathBaseName "/a/notes.txt") = false ∧
    dropStep (fun _ => true) "/ws/data" ["photo.png"] "/a/notes.txt" [] =
      ([DropEvent.transfer "/a/notes.txt"
          (pathJoin "/ws/data" (pathBaseName "/a/notes.txt"))],
        addName (pathBaseName "/a/notes.txt") ["photo.png"], []) :=
  ⟨by decide,
   c1_fresh_names_accepted.2.1 (fun _ => true) "/ws/data" ["photo.png"]
     "/a/notes.txt" [] (by decide)⟩

/-- Claim C2: a prompt answer identical (after stripping) to the currently
conflicting name is an explicit overwrite — the conflict loop returns the
name with the overwrite flag, the item step issues exactly one remote delete
of `targetPath/name` followed by the one transfer, and this event sequence
is independent of whether the deletion succeeds (`delOk`), so a failed
deletion is non-fatal. The two closed conjuncts are the spec scenario
(target entries `{photo.png}`, batch item `photo.png`, answer `photo.png`)
with the deletion succeeding and failing respectively. -/
theorem c2_identical_answer_overwrites :
    (∀ (known : List String) (current t : String) (rest : List (Option String)),
        pystripS t = current → current ≠ "" →
        resolveConflict known current (some t :: rest) =
          (some (current, true), rest)) ∧
    (∀ (delOk : String → Bool) (target : String) (known : List String)
        (localPath n : String) (resps rest : List (Option String)),
        resolveTargetName known (pathBaseName localPath) resps =
          (some (n, true), rest) →
        (dropStep delOk target known localPath resps).1 =
          [DropEvent.deleteRemote (pathJoin target n),
           DropEvent.transfer localPath (pathJoin target n)]) ∧
    ((handle_drop
        (fun _ => "-rw-r--r-- 1 user group 100 2024-01-01T00:00:00 photo.png")
        (fun _ => true) ⟨[]⟩ ["/home/me/photo.png"] "/ws/data" "/ws/data"
        [some "photo.png"]).1 =
      [DropEvent.deleteRemote "/ws/data/photo.png",
       DropEvent.transfer "/home/me/photo.png" "/ws/data/photo.png"]) ∧
    ((handle_drop
        (fun _ => "-rw-r--r-- 1 user group 100 2024-01-01T00:00:00 photo.png")
        (fun _ => false) ⟨[]⟩ ["/home/me/photo.png"] "/ws/data" "/ws/data"
        [some "photo.png"]).1 =
      [DropEvent.deleteRemote "/ws/data/photo.png",
       DropEvent.transfer "/home/me/photo.png" "/ws/data/photo.png"]) := by
  refine ⟨?_, ?_, by decide, by decide⟩
  · intro known current t rest h hne
    simp [resolveConflict, h, hne]
  · intro delOk target known localPath n resps rest h
    unfold dropStep
    rw [h]
    simp

/-- Claim C2 witness: instantiation of the overwrite conjunct at the
concrete conflicting name `photo.png`. -/
theorem c2_witness :
    pystripS "photo.png" = "photo.png" ∧ ("photo.png" : String) ≠ "" ∧
    resolveConflict ["photo.png"] "photo.png" [some "photo.png"] =
      (some ("photo.png", true), []) :=
  ⟨by decide, by decide,
   c2_identical_answer_overwrites.1 ["photo.png"] "photo.png" "photo.png" []
     (by decide) (by decide)⟩

/-- Claim C3, counterexample: an empty (but confirmed) prompt answer does
NOT skip the item — the loop re-prompts for the same item, and the next
answer is applied to it. With target entries `{photo.png}`, batch
`[photo.png, notes.txt]` and responses `["", "photo2.png"]`, a transfer IS
recorded for `photo.png` (as `photo2.png`), refuting "giving no input …
skips that single item entirely (no transfer is recorded for it)". -/
theorem c3_counterexample :
    (handle_drop
        (fun _ => "-rw-r--r-- 1 user group 100 2024-01-01T00:00:00 photo.png")
        (fun _ => true) ⟨[]⟩ ["/home/me/photo.png", "/home/me/notes.txt"]
        "/ws/data" "/ws/data" [some "", some "photo2.png"]).1 =
      [DropEvent.transfer "/home/me/photo.png" "/ws/data/photo2.png",
       DropEvent.transfer "/home/me/notes.txt" "/ws/data/notes.txt"] := by
  decide

/-- Claim C3 (amended): cancelling the prompt skips that single item
entirely — no transfer and no deletion are issued for it, the known-entry
set is unchanged, and the remaining items of the batch are still processed
with the remaining responses; an empty or whitespace-only answer does not
skip but re-prompts for the same item. The closed conjunct is the spec
scenario: with the prompt declined, only `notes.txt` is transferred. -/
theorem c3_cancel_skips_item :
    (∀ (known : List String) (current : String) (rest : List (Option String)),
        resolveConflict known current (none :: rest) = (none, rest)) ∧
    (∀ (delOk : String → Bool) (target : String) (known : List String)
        (localPath : String) (rest : List (Option String)),
        known.contains (pathBaseName localPath) = true →
        dropStep delOk target known localPath (none :: rest) =
          ([], known, rest)) ∧
    (∀ (known : List String) (current t : String) (rest : List (Option String)),
        pystripS t = "" →
        resolveConflict known current (some t :: rest) =
          resolveConflict known current rest) ∧
    ((handle_drop
        (fun _ => "-rw-r--r-- 1 user group 100 2024-01-01T00:00:00 photo.png")
        (fun _ => true) ⟨[]⟩ ["/home/me/photo.png", "/home/me/notes.txt"]
        "/ws/data" "/ws/data" [none]).1 =
      [DropEvent.transfer "/home/me/notes.txt" "/ws/data/notes.txt"]) := by
  refine ⟨?_, ?_, ?_, by decide⟩
  · intro known current rest
    rfl
  · intro delOk target known localPath rest h
    have hmem : pathBaseName localPath ∈ known := by simpa using h
    simp [dropStep, resolveTargetName, hmem, resolveConflict]
  · intro known current t rest h
    simp [resolveConflict, h]

/-- Claim C3 witness: a cancelled prompt at a concrete conflicting item
records nothing and leaves the batch state for the following items. -/
theorem c3_witness :
    (["photo.png"] : List String).contains (pathBaseName "/a/photo.png") = true ∧
    dropStep (fun _ => true) "/ws/data" ["photo.png"] "/a/photo.png"
        [none, some "x"] = ([], ["photo.png"], [some "x"]) :=
  ⟨by decide,
   c3_cancel_skips_item.2.1 (fun _ => true) "/ws/data" ["photo.png"]
     "/a/photo.png" [some "x"] (by decide)⟩

/-! ### Claim theorems: folder tree collapse/expand -/

/-- Claim C5, counterexample: collapsing a loaded node does not discard its
children and does not return it to the unloaded state — the collapse handler
leaves the item untouched (here only the displayed path moves up), and a
following expand of that node performs zero fetches and keeps the previously
loaded children, refuting "always performs a real re-fetch and never reuses
previously discarded children". -/
theorem c5_counterexample :
    on_folder_collapsed ⟨⟨"/a", true, ["b"]⟩, "/a/b"⟩ =
      ⟨⟨"/a", true, ["b"]⟩, "/a"⟩ ∧
    ensure_folder_children []
        [⟨"c", "c", true, false, none, "drwx", "0", "t"⟩]
        (on_folder_collapsed ⟨⟨"/a", true, ["b"]⟩, "/a/b"⟩).item =
      (⟨"/a", true, ["b"]⟩, 0) := by
  decide

/-- Claim C5 (amended): collapsing a tree node never modifies the node — its
loaded flag and its materialized children are kept — and a subsequent expand
of a node that is still marked loaded starts no fetch and returns the node
unchanged, reusing the previously loaded children; a real re-fetch happens
only for nodes that are not loaded. -/
theorem c5_collapse_keeps_children :
    (∀ st : CollapseState, (on_folder_collapsed st).item = st.item) ∧
    (∀ (workers : List String) (listing : List Entry) (item : FolderItem),
        item.loaded = true →
        ensure_folder_children workers listing item = (item, 0)) := by
  constructor
  · intro st
    unfold on_folder_collapsed
    split <;> rfl
  · intro workers listing item h
    simp [ensure_folder_children, h]

/-- Claim C5 witness: a concrete loaded node is returned unchanged by an
expand, with zero fetches. -/
theorem c5_witness :
    (⟨"/a", true, ["b"]⟩ : FolderItem).loaded = true ∧
    ensure_folder_children ["/x"] [] ⟨"/a", true, ["b"]⟩ =
      (⟨"/a", true, ["b"]⟩, 0) :=
  ⟨by decide,
   c5_collapse_keeps_children.2 ["/x"] [] ⟨"/a", true, ["b"]⟩ (by decide)⟩

/-! ### Claim theorems: port remapping -/

/-- Claim C8, counterexample: in the GUI's connect path a resolved mapped
port that differs from the SSH-config port replaces the effective port with
no informational message at all — the port-resolution step emits nothing,
and the user-visible connect messages are identical to those of a session
whose config port already equalled the mapped port, so the replacement is
applied silently, refuting "surfaced … in both the command-line uploader's
connection path and the GUI's connect-to-host path". -/
theorem c8_counterexample :
    guiResolvePort "22" (some "41234") = ("41234", []) ∧
    guiConnectMessages "user" "host" "22" (some "41234") =
      guiConnectMessages "user" "host" "41234" (some "41234") := by
  decide

/-- Claim C8 (amended): the command-line uploader surfaces a port
replacement — whenever the resolved mapped port differs from the SSH-config
port it prints exactly the informational remap line and uses the mapped
port, and prints nothing when they already agree — while the GUI's
connect path applies the mapped port silently (its port-resolution step
never emits a message; the effective port appears only inside the generic
connected status lines). -/
theorem c8_cli_surfaces_gui_silent :
    (∀ port m : String, m ≠ port →
        cliResolvePort port (some m) =
          (m, ["Using Vast.ai mapped port " ++ m ++
                " for container port 2222"])) ∧
    (∀ port : String, cliResolvePort port (some port) = (port, [])) ∧
    (∀ port m : String, guiResolvePort port (some m) = (m, [])) := by
  refine ⟨?_, ?_, ?_⟩
  · intro port m h
    simp [cliResolvePort, h]
  · intro port
    simp [cliResolvePort]
  · intro port m
    rfl

/-- Claim C8 witness: the CLI path at config port 22 and mapped port 41234
prints the informational remap line and switches to the mapped port. -/
theorem c8_witness :
    ("41234" : String) ≠ "22" ∧
    cliResolvePort "22" (some "41234") =
      ("41234", ["Using Vast.ai mapped port 41234 for container port 2222"]) :=
  ⟨by decide, c8_cli_surfaces_gui_silent.1 "22" "41234" (by decide)⟩

end UpGui
